import Mathlib

/-!
Verification development for the MCMC-corrected guided-diffusion sampling
scripts.  The Python sources are shallowly embedded: pure functions become
Lean functions, Python exceptions become `Except`/`Option` results, the
filesystem and the torch RNG are passed explicitly as oracles/state.
Integer-valued size fields are modelled as `Nat` (the scripts use them as
tensor sizes and loop counts).
-/

/-- Model of a Python/JSON value, as produced by `json.load` or `pickle.load`.
The payload of a float is irrelevant to every code path embedded here (only
`isinstance` checks and `is not None` checks touch these values), so it is
carried as an opaque `Int`. -/
inductive PyVal where
  | pynone
  | pybool (b : Bool)
  | pyint (n : Int)
  | pyfloat (q : Int)
  | pystr (s : String)
  | pylist (xs : List PyVal)
  | pydict (entries : List (String × PyVal))

/-- `v is None` in Python. -/
def pyIsNone : PyVal → Bool
  | .pynone => true
  | _ => false

/-- `isinstance(v, bool)` in Python. -/
def pyIsBool : PyVal → Bool
  | .pybool _ => true
  | _ => false

/-- `isinstance(v, int)` in Python: `bool` is a subclass of `int`. -/
def pyIsInt : PyVal → Bool
  | .pyint _ => true
  | .pybool _ => true
  | _ => false

/-- `isinstance(v, float) or isinstance(v, int)` in Python. -/
def pyIsNumeric : PyVal → Bool
  | .pyfloat _ => true
  | .pyint _ => true
  | .pybool _ => true
  | _ => false

/-- First-match lookup in a Python dict's entry list. -/
def lookupStr : List (String × PyVal) → String → Option PyVal
  | [], _ => Option.none
  | (k, v) :: rest, key => if k = key then some v else lookupStr rest key

/-- `v[key]` for a string key: `Option.none` models the raised `KeyError`
(missing key) or `TypeError` (not a dict). -/
def pySubscript : PyVal → String → Option PyVal
  | .pydict es, key => lookupStr es key
  | _, _ => Option.none

/-- Embedding of the `SimulationConfig` dataclass (src/exp/utils.py).
Fields whose values flow from JSON into `isinstance`/`is not None` checks are
kept as `PyVal`; fields used as sizes are `Nat`; optional fields are
`Option`. -/
structure SimulationConfig where
  name : String
  image_size : Nat
  num_channels : Nat
  diff_model : String
  class_cond : Bool
  num_diff_steps : Nat
  num_respaced_diff_steps : Nat
  num_samples : Nat
  batch_size : Nat
  classifier : String
  guid_scale : PyVal
  mcmc_method : Option String
  mcmc_steps : Option Int
  mcmc_lower_t : Option Int
  mcmc_stepsizes : Option PyVal
  n_trapets : PyVal
  seed : Option Int := Option.none
  save_traj : Bool := false
  results_dir : String := "results"

/-- The attribute names the `SimulationConfig` dataclass declares, in source
order (src/exp/utils.py lines 20-47). -/
def SimulationConfig.fieldNames : List String :=
  ["name", "image_size", "num_channels", "diff_model", "class_cond",
   "num_diff_steps", "num_respaced_diff_steps", "num_samples", "batch_size",
   "classifier", "guid_scale", "mcmc_method", "mcmc_steps", "mcmc_lower_t",
   "mcmc_stepsizes", "n_trapets", "seed", "save_traj", "results_dir"]

/-- `hasattr(config, a)`: a dataclass instance has exactly its declared
fields. -/
def SimulationConfig.hasattr (_ : SimulationConfig) (a : String) : Bool :=
  SimulationConfig.fieldNames.contains a

/-- `SimulationConfig._validate` (src/exp/utils.py lines 60-75) as a success
predicate: `true` iff none of the asserts (nor the dict subscripts feeding
them) raises. -/
def SimulationConfig.validate (c : SimulationConfig) : Bool :=
  match c.mcmc_method with
  | Option.none => true
  | some m =>
    (match c.mcmc_stepsizes with
     | Option.none => false
     | some ss =>
       (match pySubscript ss "load" with
        | some (.pybool b) =>
          if b then
            (match pySubscript ss "bounds" with
             | some v => !pyIsNone v
             | Option.none => false)
          else
            (match pySubscript ss "params" with
             | some params =>
               (match pySubscript params "factor" with
                | some f => pyIsNumeric f
                | Option.none => false) &&
               (match pySubscript params "exponent" with
                | some e => pyIsNumeric e
                | Option.none => false)
             | Option.none => false) &&
            (match pySubscript ss "beta_schedule" with
             | some v => !pyIsNone v
             | Option.none => false)
        | _ => false)) &&
    (if m = "la" then pyIsInt c.n_trapets else true)

/-- `SimulationConfig.from_json` (src/exp/utils.py lines 51-58), after JSON
parsing: the parsed record is validated before being returned; any assertion
failure raises (`Option.none`) at config-load time. -/
def SimulationConfig.from_json (c : SimulationConfig) : Option SimulationConfig :=
  if c.validate then some c else Option.none

/-! ## Persisted step-size table (src/exp/utils.py `get_step_size`,
src/exp/find_stepsize.py output) -/

/-- The file path `get_step_size` reads
(src/exp/utils.py line 86): `f"{dataset_name}_{mcmc_method}_{mcmc_accept_bounds}.p"`
inside `step_size_dir`. -/
def step_size_path (step_size_dir dataset_name mcmc_method mcmc_accept_bounds : String) : String :=
  step_size_dir ++ "/" ++ dataset_name ++ "_" ++ mcmc_method ++ "_" ++ mcmc_accept_bounds ++ ".p"

/-- The file `find_stepsize.py` writes the calibrated step sizes to
(src/exp/find_stepsize.py line 113): a fixed name, independent of dataset,
method and bounds. -/
def find_stepsize_output_path : String :=
  "adaptive_step_sizes.p"

/-- One per-timestep record of the pickled calibration result: the code only
reads its `"step_sizes"` entry, the list of candidate step sizes tried for
that timestep (last one is the final resolved value). -/
structure StepRecord (α : Type) where
  step_sizes : List α

/-- The list comprehension plus `dict(...)` in `get_step_size`
(src/exp/utils.py lines 93-94):
`[(int(t), x["step_sizes"][-1]) for t, x in res.items() if x["step_sizes"]]`.
The pickled dict is its (insertion-ordered, key-distinct) entry list. -/
def extract_step_sizes {α : Type} (res : List (Int × StepRecord α)) : List (Int × α) :=
  (res.filter fun p => !p.2.step_sizes.isEmpty).filterMap
    fun p => (p.2.step_sizes.getLast?).map fun s => (p.1, s)

/-- `get_step_size` (src/exp/utils.py lines 84-94).  `fs` is the filesystem:
it returns the pickled contents of a path when the file exists.  The
`assert path.exists()` failure becomes the error branch, carrying the
assert's message. -/
def get_step_size {α : Type} (fs : String → Option (List (Int × StepRecord α)))
    (step_size_dir dataset_name mcmc_method mcmc_accept_bounds : String) :
    Except String (List (Int × α)) :=
  match fs (step_size_path step_size_dir dataset_name mcmc_method mcmc_accept_bounds) with
  | some res => .ok (extract_step_sizes res)
  | Option.none =>
    .error ("Step size file " ++
      step_size_path step_size_dir dataset_name mcmc_method mcmc_accept_bounds ++
      " not found")

/-! ## Respaced schedule and sampler selection (src/exp/find_stepsize.py) -/

/-- Modelled from the spec: `respaced_timesteps` lives in
`src.diffusion.beta_schedules`, which is not among the provided sources.  The
spec requires a strictly increasing subsequence of `{0, ..., T-1}` of length
`respaced_T`, starting at the earliest retained index; it is modelled as the
evenly spaced selection `i * T / respaced_T` for `i < respaced_T`. -/
def respaced_timesteps (T respaced_T : Nat) : List Nat :=
  (List.range respaced_T).map fun i => i * T / respaced_T

/-- The schedule-construction branch of `find_stepsize.py` `main`
(src/exp/find_stepsize.py lines 47-56): full range when `respaced_T = T`,
the respaced subsequence when `respaced_T < T`, and a `ValueError` raised
before anything else is built when `respaced_T > T`. -/
def compute_time_steps (T respaced_T : Nat) : Except String (List Nat) :=
  if respaced_T = T then
    .ok (List.range T)
  else if respaced_T < T then
    .ok (respaced_timesteps T respaced_T)
  else
    .error "respaced_num_diff_steps should not be higher than num_diff_steps (slower)"

/-- Which adaptive step-size wrapper `find_stepsize.py` builds. -/
inductive WrapperKind where
  | adaptive
  | adaptiveSmallBatchSize
  deriving DecidableEq

/-- Which guided sampler `find_stepsize.py` builds around the wrapper. -/
inductive GuidanceKind where
  | plain
  | stacking
  deriving DecidableEq

/-- The pair of objects `find_stepsize.py` `main` constructs in its
`batch_size < num_samples` branch versus its else branch
(src/exp/find_stepsize.py lines 80-110). -/
structure SamplerSelection where
  wrapper : WrapperKind
  guidance : GuidanceKind
  deriving DecidableEq

/-- The branch on `batch_size < num_samples` in `find_stepsize.py` `main`. -/
def select_samplers (batch_size num_samples : Nat) : SamplerSelection :=
  if batch_size < num_samples then
    ⟨WrapperKind.adaptiveSmallBatchSize, GuidanceKind.stacking⟩
  else
    ⟨WrapperKind.adaptive, GuidanceKind.plain⟩

/-- The calibration-run plan of `find_stepsize.py` `main`: the respaced
schedule and the selected sampler pair. -/
structure CalibrationPlan where
  time_steps : List Nat
  samplers : SamplerSelection

/-- The externally visible actions `find_stepsize.py` `main` performs before
and after its schedule branch, in source order.  The two device loads
(`load_mnist_diff(diff_model_path, device)` or
`load_guided_diff_unet(..., dev=device)` at lines 33-45, and the classifier
load with `.to(device)` at lines 36/44 and 118) happen before the schedule
branch at lines 47-56; the diffusion sampler (built and moved to the device
at lines 58-59), the MCMC sampler (lines 72-75) and the calibration sampler
pair (lines 80-110) are all built after it. -/
inductive FSEvent where
  | deviceLoadDiffModel
  | deviceLoadClassifier
  | diffSamplerBuilt
  | mcmcSamplerBuilt
  | calibrationSamplersBuilt (sel : SamplerSelection)
  deriving DecidableEq

/-- `find_stepsize.py` `main` (lines 26-113), reduced to its event order and
the decisions the claims are about: the diffusion model and classifier are
loaded onto the device first, then the schedule branch runs (raising
`ValueError` on an oversized respaced count), and only then are the samplers
built.  Returns the events performed before termination together with the
outcome. -/
def find_stepsize_main (num_diff_steps respaced_num_diff_steps batch_size num_samples : Nat) :
    List FSEvent × Except String CalibrationPlan :=
  let loads := [FSEvent.deviceLoadDiffModel, FSEvent.deviceLoadClassifier]
  match compute_time_steps num_diff_steps respaced_num_diff_steps with
  | .error e => (loads, .error e)
  | .ok ts =>
    let sel := select_samplers batch_size num_samples
    (loads ++ [FSEvent.diffSamplerBuilt, FSEvent.mcmcSamplerBuilt,
               FSEvent.calibrationSamplersBuilt sel],
     .ok ⟨ts, sel⟩)

/-- The outcome of a calibration run: the plan component of
`find_stepsize_main`. -/
def find_stepsize_plan (num_diff_steps respaced_num_diff_steps batch_size num_samples : Nat) :
    Except String CalibrationPlan :=
  (find_stepsize_main num_diff_steps respaced_num_diff_steps batch_size num_samples).2

/-! ## Production simulation pipeline (src/exp/simulation.py `main`) -/

/-- The Python exceptions the simulation entry point can raise. -/
inductive PyError where
  | assertionError (msg : String)
  | typeError (msg : String)
  | attributeError (attr : String)
  | zeroDivisionError
  deriving DecidableEq

/-- `true` exactly when a run result is a raised `AttributeError`. -/
def resultIsAttributeError {α : Type} : Except PyError α → Bool
  | .error (.attributeError _) => true
  | _ => false

/-- The filesystem facts `simulation.py` `main` checks with asserts. -/
structure SimEnv where
  diff_model_file_exists : Bool
  classifier_file_exists : Bool

/-- One call to `guid_sampler.sample` in the sampling loop: how many samples
it requests and how many class labels it passes. -/
structure SampleCall where
  requested : Nat
  labels : Nat
  deriving DecidableEq

/-- The sampling loop of `simulation.py` `main` (lines 88-96):
`for batch in range(config.num_samples // config.batch_size)`, each iteration
drawing `batch_size` class labels and requesting `batch_size` samples. -/
def sampling_loop_calls (c : SimulationConfig) : List SampleCall :=
  (List.range (c.num_samples / c.batch_size)).map fun _ => ⟨c.batch_size, c.batch_size⟩

/-- The call `setup_results_dir(config)` at src/exp/simulation.py line 31.
`setup_results_dir` (src/exp/utils.py line 97) requires a second positional
argument `job_id` with no default, so this call raises a `TypeError`
unconditionally. -/
def simulation_setup_dir_step : Except PyError String :=
  .error (.typeError "setup_results_dir missing 1 required positional argument: job_id")

/-- The MCMC branch of `simulation.py` `main` (lines 70-77).  With
`mcmc_method` set, the code runs
`assert config.mcmc_steps is not None and config.mcmc_bounds is not None`:
if `mcmc_steps` is `None` the `and` short-circuits and the assert fails;
otherwise the attribute read `config.mcmc_bounds` is evaluated, and since
`SimulationConfig` declares no such field it raises `AttributeError`. -/
def simulation_mcmc_branch (c : SimulationConfig) : Except PyError GuidanceKind :=
  match c.mcmc_method with
  | Option.none => .ok GuidanceKind.plain
  | some _ =>
    match c.mcmc_steps with
    | Option.none => .error (.assertionError "")
    | some _ =>
      if c.hasattr "mcmc_bounds" then .ok GuidanceKind.plain
      else .error (.attributeError "mcmc_bounds")

/-- `simulation.py` `main` (src/exp/simulation.py lines 26-99), in source
order: load-and-validate the config, assert divisibility of `num_samples` by
`batch_size` (Python `%` raises `ZeroDivisionError` on a zero divisor),
call `setup_results_dir`, assert the model files exist, build the guided
sampler (MCMC branch), then run the sampling loop.  Device computation inside
the loop is abstracted away; the result is the list of sampling calls
performed. -/
def simulation_main (c : SimulationConfig) (env : SimEnv) : Except PyError (List SampleCall) := do
  if !c.validate then throw (.assertionError "config validation failed")
  if c.batch_size = 0 then throw .zeroDivisionError
  if c.num_samples % c.batch_size ≠ 0 then
    throw (.assertionError "num_samples should be a multiple of batch_size")
  let _sim_dir ← simulation_setup_dir_step
  if !env.diff_model_file_exists then throw (.assertionError "diff model file does not exist")
  if c.class_cond ∧ (c.diff_model.splitOn "uncond").length > 1 then
    throw (.assertionError "class_cond with uncond model")
  if !env.classifier_file_exists then throw (.assertionError "classifier file does not exist")
  let _guid ← simulation_mcmc_branch c
  pure (sampling_loop_calls c)

/-! ## Validation-step RNG discipline
(src/src/model/trainers/classifier.py `DiffusionClassifier.validation_step`) -/

/-- The device the trainer draws on (`self.device`). -/
inductive TorchDevice where
  | cpu
  | cuda
  deriving DecidableEq

/-- An abstract model of one torch generator: `σ` is a generator's state, `α`
the value a draw produces.  `seed_state i` is the state a generator holds
right after being seeded with `i`; `randint`/`randn_like` consume state. -/
structure RngOps (σ α : Type) where
  seed_state : Nat → σ
  randint : Nat → σ → α × σ
  randn_like : σ → α × σ

/-- The pair of default generators torch keeps: one for the CPU and one for
the CUDA device.  `th.get_rng_state`/`th.set_rng_state` read and write only
the CPU generator's state; `th.manual_seed` seeds every device's generator;
a draw with `device=d` consumes device `d`'s generator. -/
structure TorchRng (σ : Type) where
  cpu : σ
  cuda : σ

/-- `th.manual_seed(i)`: every device's generator is re-seeded. -/
def torch_manual_seed {σ α : Type} (R : RngOps σ α) (i : Nat) (_ : TorchRng σ) :
    TorchRng σ :=
  { cpu := R.seed_state i, cuda := R.seed_state i }

/-- A draw on device `d` consumes device `d`'s generator only. -/
def torch_draw {σ α : Type} (draw : σ → α × σ) (d : TorchDevice) (g : TorchRng σ) :
    α × TorchRng σ :=
  match d with
  | .cpu => ((draw g.cpu).1, { g with cpu := (draw g.cpu).2 })
  | .cuda => ((draw g.cuda).1, { g with cuda := (draw g.cuda).2 })

/-- The trainer state that `validation_step` touches: the validation batch
counter and the generator pair. -/
structure ValState (σ : Type) where
  i_batch_val : Nat
  rng : TorchRng σ

/-- `DiffusionClassifier.validation_step`, restricted to its RNG discipline
(src/src/model/trainers/classifier.py lines 69-92), drawing on device `dev`:
`th.get_rng_state()` captures the CPU generator's state only;
`th.manual_seed(self.i_batch_val)` re-seeds every generator; the timesteps
(bounded by `T`, drawn with `device=self.device`) and the noise
(`th.randn_like(x)`, on `x`'s device) consume device `dev`'s generator;
`th.set_rng_state(rng_state)` then restores the CPU generator only, before
the model is evaluated; finally `i_batch_val` is incremented.  Returns the
pair of draws and the post-step trainer state. -/
def validation_step {σ α : Type} (R : RngOps σ α) (dev : TorchDevice) (T : Nat)
    (s : ValState σ) : (α × α) × ValState σ :=
  let rng_state := s.rng.cpu
  let g0 := torch_manual_seed R s.i_batch_val s.rng
  let (ts, g1) := torch_draw (R.randint T) dev g0
  let (noise, g2) := torch_draw R.randn_like dev g1
  let g3 := { g2 with cpu := rng_state }
  ((ts, noise), ⟨s.i_batch_val + 1, g3⟩)

/-- A whole validation run: `n` batches processed in order by
`validation_step`, accumulating the per-batch draws. -/
def validation_run {σ α : Type} (R : RngOps σ α) (dev : TorchDevice) (T : Nat) :
    Nat → ValState σ → List (α × α) × ValState σ
  | 0, s => ([], s)
  | n + 1, s =>
    let (d, s1) := validation_step R dev T s
    let (ds, s2) := validation_run R dev T n s1
    (d :: ds, s2)

/-! ## Theorems -/

/-- Claim C4: if the persisted step-size file for the requested key does not
exist, `get_step_size` fails with a not-found error whose message names the
expected file path, and never returns a default or fallback step-size
mapping. -/
theorem get_step_size_missing_file {α : Type}
    (fs : String → Option (List (Int × StepRecord α)))
    (dir name method bounds : String)
    (h : fs (step_size_path dir name method bounds) = Option.none) :
    get_step_size fs dir name method bounds =
      .error ("Step size file " ++ step_size_path dir name method bounds ++ " not found") := by
  unfold get_step_size
  rw [h]

/-- Witness for C4 at a concrete key and an empty filesystem. -/
theorem get_step_size_missing_file_w :
    get_step_size (fun _ => (Option.none : Option (List (Int × StepRecord Int))))
      "models/step_sizes" "mnist" "hmc" "0.6_0.8" =
      .error ("Step size file " ++
        step_size_path "models/step_sizes" "mnist" "hmc" "0.6_0.8" ++ " not found") :=
  get_step_size_missing_file _ "models/step_sizes" "mnist" "hmc" "0.6_0.8" rfl

/-- Counterexample to C6: requesting a respaced step count greater than the
full diffusion step count does raise the `ValueError`, but only after the
diffusion model and classifier have already been loaded onto the device —
device computation has begun before the schedule error is raised. -/
theorem respaced_error_after_device_loads :
    (find_stepsize_main 250 1000 10 100).2 =
      .error "respaced_num_diff_steps should not be higher than num_diff_steps (slower)" ∧
    FSEvent.deviceLoadDiffModel ∈ (find_stepsize_main 250 1000 10 100).1 ∧
    FSEvent.deviceLoadClassifier ∈ (find_stepsize_main 250 1000 10 100).1 := by
  refine ⟨rfl, ?_, ?_⟩ <;> decide

/-- Amended C6: requesting a respaced step count greater than the full
diffusion step count makes the calibration script raise a `ValueError` in
the schedule branch, before any sampler (diffusion, MCMC or calibration
sampler pair) is built and before sampling begins — but only after the
diffusion model and classifier have been loaded onto the device, so device
computation has already begun when the error is raised. -/
theorem respaced_exceeding_full_errors (T resp batch_size num_samples : Nat)
    (h : T < resp) :
    find_stepsize_main T resp batch_size num_samples =
      ([FSEvent.deviceLoadDiffModel, FSEvent.deviceLoadClassifier],
        .error "respaced_num_diff_steps should not be higher than num_diff_steps (slower)") := by
  have h1 : ¬ resp = T := by omega
  have h2 : ¬ resp < T := by omega
  simp [find_stepsize_main, compute_time_steps, h1, h2]

/-- Witness for the amended C6: `T = 250`, respaced count `1000`. -/
theorem respaced_exceeding_full_errors_w :
    find_stepsize_main 250 1000 10 100 =
      ([FSEvent.deviceLoadDiffModel, FSEvent.deviceLoadClassifier],
        .error "respaced_num_diff_steps should not be higher than num_diff_steps (slower)") :=
  respaced_exceeding_full_errors 250 1000 10 100 (by decide)

/-- Claim C7: in a calibration run, the small-batch (stacking) wrapper
together with the stacking guided sampler is selected exactly when the
requested number of samples exceeds the batch size; otherwise the plain
adaptive wrapper and plain guided sampler are selected. -/
theorem stacking_selection_iff (T resp batch_size num_samples : Nat)
    (plan : CalibrationPlan)
    (h : find_stepsize_plan T resp batch_size num_samples = .ok plan) :
    (plan.samplers = ⟨WrapperKind.adaptiveSmallBatchSize, GuidanceKind.stacking⟩ ↔
      batch_size < num_samples) ∧
    (plan.samplers = ⟨WrapperKind.adaptive, GuidanceKind.plain⟩ ↔
      num_samples ≤ batch_size) := by
  have hsel : plan.samplers = select_samplers batch_size num_samples := by
    unfold find_stepsize_plan find_stepsize_main at h
    cases hts : compute_time_steps T resp with
    | ok ts =>
      rw [hts] at h
      have hp : Except.ok (⟨ts, select_samplers batch_size num_samples⟩ : CalibrationPlan) =
          .ok plan := h
      cases hp
      rfl
    | error e =>
      rw [hts] at h
      have hp : (Except.error e : Except String CalibrationPlan) = .ok plan := h
      cases hp
  by_cases hlt : batch_size < num_samples
  · rw [hsel]
    simp only [select_samplers, if_pos hlt]
    refine ⟨iff_of_true trivial hlt, ?_⟩
    simp only [SamplerSelection.mk.injEq]
    constructor
    · rintro ⟨h1, -⟩; cases h1
    · intro hle; omega
  · rw [hsel]
    simp only [select_samplers, if_neg hlt]
    refine ⟨?_, by simp; omega⟩
    simp only [SamplerSelection.mk.injEq]
    constructor
    · rintro ⟨h1, -⟩; cases h1
    · intro hgt; omega

/-- Witness for C7 at `batch_size = 5 < num_samples = 100`. -/
theorem stacking_selection_iff_w :
    ((⟨List.range 10, ⟨WrapperKind.adaptiveSmallBatchSize, GuidanceKind.stacking⟩⟩ :
        CalibrationPlan).samplers =
      ⟨WrapperKind.adaptiveSmallBatchSize, GuidanceKind.stacking⟩ ↔ 5 < 100) :=
  (stacking_selection_iff 10 10 5 100
    ⟨List.range 10, ⟨WrapperKind.adaptiveSmallBatchSize, GuidanceKind.stacking⟩⟩ rfl).1

/-- A concrete counting generator: the state is a counter, each draw returns
the state and advances it, and seeding with `i` sets the counter to
`1000 * i`. -/
def counterRng : RngOps Nat Nat :=
  { seed_state := fun i => 1000 * i
    randint := fun _ g => (g, g + 1)
    randn_like := fun g => (g, g + 1) }

/-- Counterexample to C10: when the trainer draws on the CUDA device, a
validation step leaves the device generator perturbed — `th.set_rng_state`
restores only the CPU generator it captured, while `th.manual_seed` re-seeded
the device generator and both draws advanced it.  At a concrete generator
pair the CPU state is restored but the device state is not. -/
theorem validation_step_perturbs_device_stream :
    ((validation_step counterRng TorchDevice.cuda 5 ⟨0, ⟨7, 42⟩⟩).2).rng.cpu = 7 ∧
    ((validation_step counterRng TorchDevice.cuda 5 ⟨0, ⟨7, 42⟩⟩).2).rng.cuda ≠ 42 := by
  refine ⟨rfl, ?_⟩
  decide

/-- Helper for C10: a validation run's draws depend only on the batch
counter, the CPU generator state is carried through untouched, and the batch
counter advances by the number of batches. -/
theorem validation_run_spec {σ α : Type} (R : RngOps σ α) (dev : TorchDevice)
    (T : Nat) :
    ∀ (n c : Nat) (g g' : TorchRng σ),
      (validation_run R dev T n ⟨c, g⟩).1 = (validation_run R dev T n ⟨c, g'⟩).1 ∧
      ((validation_run R dev T n ⟨c, g⟩).2).rng.cpu = g.cpu ∧
      ((validation_run R dev T n ⟨c, g⟩).2).i_batch_val = c + n := by
  intro n
  induction n with
  | zero => intro c g g'; exact ⟨rfl, rfl, rfl⟩
  | succ k ih =>
    intro c g g'
    refine ⟨?_, ?_, ?_⟩
    · show (validation_step R dev T ⟨c, g⟩).1
          :: (validation_run R dev T k
                ⟨c + 1, ((validation_step R dev T ⟨c, g⟩).2).rng⟩).1 =
        (validation_step R dev T ⟨c, g'⟩).1
          :: (validation_run R dev T k
                ⟨c + 1, ((validation_step R dev T ⟨c, g'⟩).2).rng⟩).1
      rw [(ih (c + 1) ((validation_step R dev T ⟨c, g⟩).2).rng
            ((validation_step R dev T ⟨c, g'⟩).2).rng).1]
      rfl
    · show ((validation_run R dev T k
          ⟨c + 1, ((validation_step R dev T ⟨c, g⟩).2).rng⟩).2).rng.cpu = g.cpu
      rw [(ih (c + 1) ((validation_step R dev T ⟨c, g⟩).2).rng
            ((validation_step R dev T ⟨c, g⟩).2).rng).2.1]
      rfl
    · show ((validation_run R dev T k
          ⟨c + 1, ((validation_step R dev T ⟨c, g⟩).2).rng⟩).2).i_batch_val = c + (k + 1)
      rw [(ih (c + 1) ((validation_step R dev T ⟨c, g⟩).2).rng
            ((validation_step R dev T ⟨c, g⟩).2).rng).2.2]
      omega

/-- Amended C10: each validation step captures the CPU generator state, seeds
every generator with the validation batch counter, draws the timesteps and
noise from the active device's generator, and restores the captured CPU
state before the model is evaluated.  Hence two validation runs over the same
batches draw identical timesteps and noise whatever generator states they
start from, and the CPU RNG stream — the only one
`get_rng_state`/`set_rng_state` manage — is left exactly as found; but when
the draws run on the CUDA device, that device's generator is left re-seeded
and advanced rather than restored, so the device RNG stream used by the rest
of the program is perturbed. -/
theorem validation_rng_discipline {σ α : Type} (R : RngOps σ α)
    (dev : TorchDevice) (T n c : Nat) (g g' : TorchRng σ) :
    (validation_step R dev T ⟨c, g⟩).1 = (validation_step R dev T ⟨c, g'⟩).1 ∧
    ((validation_step R dev T ⟨c, g⟩).2).rng.cpu = g.cpu ∧
    ((validation_step R TorchDevice.cuda T ⟨c, g⟩).2).rng.cuda =
      (R.randn_like (R.randint T (R.seed_state c)).2).2 ∧
    (validation_run R dev T n ⟨c, g⟩).1 = (validation_run R dev T n ⟨c, g'⟩).1 ∧
    ((validation_run R dev T n ⟨c, g⟩).2).rng.cpu = g.cpu ∧
    ((validation_run R dev T n ⟨c, g⟩).2).i_batch_val = c + n :=
  ⟨rfl, rfl, rfl, (validation_run_spec R dev T n c g g').1,
    (validation_run_spec R dev T n c g g').2.1,
    (validation_run_spec R dev T n c g g').2.2⟩

/-- Helper for C5: the evenly spaced selection is strictly increasing in the
index as long as the respaced count does not exceed the full count. -/
theorem respaced_index_strict_mono {T resp i j : Nat} (hresp : 0 < resp)
    (hTr : resp ≤ T) (hij : i < j) : i * T / resp < j * T / resp := by
  have h1 : (i * T + resp) / resp = i * T / resp + 1 := Nat.add_div_right _ hresp
  have h2 : i * T + resp ≤ j * T := by
    have : (i + 1) * T ≤ j * T := Nat.mul_le_mul_right T hij
    calc i * T + resp ≤ i * T + T := by omega
    _ = (i + 1) * T := by ring
    _ ≤ j * T := this
  have h3 : (i * T + resp) / resp ≤ j * T / resp := Nat.div_le_div_right h2
  omega

/-- Claim C5: for every valid schedule (respaced count at most the full step
count `T`), the respaced timestep index sequence is strictly increasing, has
length equal to the requested respaced count, and its entries never exceed
`T - 1`; when the requested respaced count equals `T`, the sequence is
exactly `0, 1, ..., T - 1`. -/
theorem compute_time_steps_spec (T resp : Nat) (h : resp ≤ T) :
    ∃ ts, compute_time_steps T resp = .ok ts ∧
      List.Pairwise (· < ·) ts ∧
      ts.length = resp ∧
      (∀ x ∈ ts, x ≤ T - 1) ∧
      (resp = T → ts = List.range T) := by
  by_cases heq : resp = T
  · subst heq
    refine ⟨List.range resp, by simp [compute_time_steps], List.pairwise_lt_range resp,
      List.length_range resp, ?_, fun _ => rfl⟩
    intro x hx
    have := List.mem_range.mp hx
    omega
  · have hlt : resp < T := lt_of_le_of_ne h heq
    refine ⟨respaced_timesteps T resp, ?_, ?_, ?_, ?_, fun he => absurd he heq⟩
    · simp [compute_time_steps, heq, hlt]
    · unfold respaced_timesteps
      rw [List.pairwise_map]
      rcases Nat.eq_zero_or_pos resp with hz | hpos
      · subst hz; simp
      · exact (List.pairwise_lt_range resp).imp
          fun hij => respaced_index_strict_mono hpos h hij
    · simp [respaced_timesteps]
    · intro x hx
      unfold respaced_timesteps at hx
      rcases List.mem_map.mp hx with ⟨i, hi, hix⟩
      have hiresp : i < resp := List.mem_range.mp hi
      have hpos : 0 < resp := Nat.pos_of_ne_zero fun hz => by omega
      have hT : 0 < T := lt_of_le_of_lt (Nat.zero_le resp) hlt
      have hmul : i * T < T * resp := by
        calc i * T < resp * T := Nat.mul_lt_mul_of_pos_right hiresp hT
        _ = T * resp := Nat.mul_comm resp T
      have : i * T / resp < T := (Nat.div_lt_iff_lt_mul hpos).mpr hmul
      omega

/-- Witness for C5 at `T = 8`, respaced count `3`. -/
theorem compute_time_steps_spec_w :
    ∃ ts, compute_time_steps 8 3 = .ok ts ∧
      List.Pairwise (· < ·) ts ∧
      ts.length = 3 ∧
      (∀ x ∈ ts, x ≤ 8 - 1) ∧
      (3 = 8 → ts = List.range 8) :=
  compute_time_steps_spec 8 3 (by decide)

/-- Helper for C2: a record with an empty step-size list contributes no
entry. -/
theorem extract_cons_empty {α : Type} (t : Int) (r : StepRecord α)
    (rest : List (Int × StepRecord α)) (h : r.step_sizes = []) :
    extract_step_sizes ((t, r) :: rest) = extract_step_sizes rest := by
  simp [extract_step_sizes, h]

/-- Helper for C2: a record with a non-empty step-size list contributes its
last step size. -/
theorem extract_cons_nonempty {α : Type} (t : Int) (r : StepRecord α)
    (rest : List (Int × StepRecord α)) (h : r.step_sizes ≠ []) :
    extract_step_sizes ((t, r) :: rest) =
      (t, r.step_sizes.getLast h) :: extract_step_sizes rest := by
  simp [extract_step_sizes, h, List.getLast?_eq_getLast _ h]

/-- Helper for C2: a timestep absent from the record has no entry in the
extracted table. -/
theorem extract_lookup_notin {α : Type} (res : List (Int × StepRecord α))
    (t : Int) (h : t ∉ res.map Prod.fst) :
    (extract_step_sizes res).lookup t = Option.none := by
  induction res with
  | nil => rfl
  | cons p rest ih =>
    obtain ⟨t', r⟩ := p
    have ht' : ¬ t = t' := by simp at h; tauto
    have hrest : t ∉ rest.map Prod.fst := by simp at h ⊢; tauto
    by_cases he : r.step_sizes = []
    · rw [extract_cons_empty _ _ _ he]
      exact ih hrest
    · rw [extract_cons_nonempty _ _ _ he, List.lookup_cons]
      have : (t == t') = false := beq_false_of_ne ht'
      rw [this]
      exact ih hrest

/-- Helper for C2: lookup characterization of the extracted step-size table,
for a record with distinct timestep keys. -/
theorem extract_lookup_spec {α : Type} (res : List (Int × StepRecord α))
    (hnd : (res.map Prod.fst).Nodup) (t : Int) :
    ((∃ s, (extract_step_sizes res).lookup t = some s) ↔
      ∃ r, (t, r) ∈ res ∧ r.step_sizes ≠ []) ∧
    (∀ r, (t, r) ∈ res → r.step_sizes ≠ [] →
      (extract_step_sizes res).lookup t = r.step_sizes.getLast?) := by
  induction res with
  | nil =>
    refine ⟨?_, ?_⟩
    · constructor
      · rintro ⟨s, hs⟩; cases hs
      · rintro ⟨r, hr, -⟩; cases hr
    · intro r hr; cases hr
  | cons p rest ih =>
    obtain ⟨t', r'⟩ := p
    have hnd' : (rest.map Prod.fst).Nodup := (List.nodup_cons.mp (by simpa using hnd)).2
    have htnotin : t' ∉ rest.map Prod.fst := (List.nodup_cons.mp (by simpa using hnd)).1
    by_cases he : r'.step_sizes = []
    · rw [extract_cons_empty _ _ _ he]
      refine ⟨?_, ?_⟩
      · rw [(ih hnd').1]
        constructor
        · rintro ⟨r, hr, hne⟩
          exact ⟨r, List.mem_cons_of_mem _ hr, hne⟩
        · rintro ⟨r, hr, hne⟩
          rcases List.mem_cons.mp hr with heq | hmem
          · rcases Prod.mk.injEq .. ▸ heq with ⟨-, hr'⟩
            exact absurd he (hr' ▸ hne)
          · exact ⟨r, hmem, hne⟩
      · intro r hr hne
        rcases List.mem_cons.mp hr with heq | hmem
        · rcases Prod.mk.injEq .. ▸ heq with ⟨-, hr'⟩
          exact absurd he (hr' ▸ hne)
        · exact (ih hnd').2 r hmem hne
    · rw [extract_cons_nonempty _ _ _ he]
      by_cases ht : t = t'
      · subst ht
        have hbeq : (t == t) = true := beq_self_eq_true t
        refine ⟨?_, ?_⟩
        · rw [List.lookup_cons, hbeq]
          exact iff_of_true ⟨r'.step_sizes.getLast he, rfl⟩
            ⟨r', List.mem_cons_self _ _, he⟩
        · intro r hr hne
          rcases List.mem_cons.mp hr with heq | hmem
          · rcases Prod.mk.injEq .. ▸ heq with ⟨-, hr'⟩
            subst hr'
            rw [List.lookup_cons, hbeq, List.getLast?_eq_getLast _ hne]
          · exact absurd (List.mem_map.mpr ⟨(t, r), hmem, rfl⟩) htnotin
      · have hbeq : (t == t') = false := beq_false_of_ne ht
        rw [List.lookup_cons, hbeq]
        refine ⟨?_, ?_⟩
        · rw [(ih hnd').1]
          constructor
          · rintro ⟨r, hr, hne⟩
            exact ⟨r, List.mem_cons_of_mem _ hr, hne⟩
          · rintro ⟨r, hr, hne⟩
            rcases List.mem_cons.mp hr with heq | hmem
            · rcases Prod.mk.injEq .. ▸ heq with ⟨hteq, -⟩
              exact absurd hteq ht
            · exact ⟨r, hmem, hne⟩
        · intro r hr hne
          rcases List.mem_cons.mp hr with heq | hmem
          · rcases Prod.mk.injEq .. ▸ heq with ⟨hteq, -⟩
            exact absurd hteq ht
          · exact (ih hnd').2 r hmem hne

/-- Claim C2: for every persisted step-size record with distinct timestep
keys, `get_step_size` returns a mapping whose keys are exactly the timesteps
whose recorded step-size list is non-empty (so the terminal timestep, which
carries no step size, is excluded), each mapped to the last step size
recorded for it. -/
theorem get_step_size_final_resolved {α : Type}
    (fs : String → Option (List (Int × StepRecord α)))
    (dir name method bounds : String) (res : List (Int × StepRecord α))
    (hfs : fs (step_size_path dir name method bounds) = some res)
    (hnd : (res.map Prod.fst).Nodup) :
    ∃ table, get_step_size fs dir name method bounds = .ok table ∧
      ∀ t : Int,
        ((∃ s, table.lookup t = some s) ↔
          ∃ r, (t, r) ∈ res ∧ r.step_sizes ≠ []) ∧
        (∀ r, (t, r) ∈ res → r.step_sizes ≠ [] →
          table.lookup t = r.step_sizes.getLast?) := by
  refine ⟨extract_step_sizes res, ?_, fun t => extract_lookup_spec res hnd t⟩
  unfold get_step_size
  rw [hfs]

/-- Witness for C2: a three-timestep record where the terminal timestep `2`
has an empty step-size list. -/
theorem get_step_size_final_resolved_w :
    ∃ table,
      get_step_size
        (fun _ => some [((0 : Int), (⟨[5, 7]⟩ : StepRecord Int)),
                        ((1 : Int), ⟨[9]⟩), ((2 : Int), ⟨[]⟩)])
        "models/step_sizes" "mnist" "hmc" "0.6_0.8" = .ok table ∧
      ∀ t : Int,
        ((∃ s, table.lookup t = some s) ↔
          ∃ r, (t, r) ∈ [((0 : Int), (⟨[5, 7]⟩ : StepRecord Int)),
                         ((1 : Int), ⟨[9]⟩), ((2 : Int), ⟨[]⟩)] ∧
            r.step_sizes ≠ []) ∧
        (∀ r, (t, r) ∈ [((0 : Int), (⟨[5, 7]⟩ : StepRecord Int)),
                        ((1 : Int), ⟨[9]⟩), ((2 : Int), ⟨[]⟩)] →
          r.step_sizes ≠ [] → table.lookup t = r.step_sizes.getLast?) :=
  get_step_size_final_resolved _ "models/step_sizes" "mnist" "hmc" "0.6_0.8"
    [((0 : Int), ⟨[5, 7]⟩), ((1 : Int), ⟨[9]⟩), ((2 : Int), ⟨[]⟩)] rfl (by decide)

/-- Claim C1: loading a `SimulationConfig` validates it at config-load time.
With `mcmc_method` set, loading succeeds exactly when `mcmc_stepsizes` is
present with a boolean `load` flag, with a non-None `bounds` entry when
`load` is true, with numeric `factor` and `exponent` params and a non-None
`beta_schedule` when `load` is false, and with an integer `n_trapets` when
the method is `la`; any violation makes `from_json` raise instead of
returning a config, before any sampling. -/
theorem from_json_validates_mcmc (c : SimulationConfig) (m : String)
    (h : c.mcmc_method = some m) :
    c.from_json = some c ↔
      ∃ ss, c.mcmc_stepsizes = some ss ∧
        (∃ b : Bool, pySubscript ss "load" = some (.pybool b) ∧
          (b = true →
            ∃ v, pySubscript ss "bounds" = some v ∧ pyIsNone v = false) ∧
          (b = false →
            (∃ params, pySubscript ss "params" = some params ∧
              (∃ f, pySubscript params "factor" = some f ∧ pyIsNumeric f = true) ∧
              (∃ e, pySubscript params "exponent" = some e ∧ pyIsNumeric e = true)) ∧
            (∃ w, pySubscript ss "beta_schedule" = some w ∧ pyIsNone w = false))) ∧
        (m = "la" → pyIsInt c.n_trapets = true) := by
  have hfj : (c.from_json = some c) ↔ c.validate = true := by
    unfold SimulationConfig.from_json
    by_cases hv : c.validate <;> simp [hv]
  rw [hfj]
  rcases hss : c.mcmc_stepsizes with _ | ss
  · simp [SimulationConfig.validate, h, hss]
  · rcases hload : pySubscript ss "load" with _ | v
    · simp [SimulationConfig.validate, h, hss, hload]
    · rcases v with _ | b | n | q | s | xs | es
      · simp [SimulationConfig.validate, h, hss, hload]
      · cases b
        · rcases hp : pySubscript ss "params" with _ | pv
          · by_cases hm : m = "la" <;>
              simp [SimulationConfig.validate, h, hss, hload, hp, hm]
          · rcases hf : pySubscript pv "factor" with _ | fv <;>
              rcases hx : pySubscript pv "exponent" with _ | ev <;>
              rcases hbs : pySubscript ss "beta_schedule" with _ | wv <;>
              by_cases hm : m = "la" <;>
              simp [SimulationConfig.validate, h, hss, hload, hp, hf, hx, hbs, hm]
        · rcases hb : pySubscript ss "bounds" with _ | w <;>
            by_cases hm : m = "la" <;>
            simp [SimulationConfig.validate, h, hss, hload, hb, hm]
      · simp [SimulationConfig.validate, h, hss, hload]
      · simp [SimulationConfig.validate, h, hss, hload]
      · simp [SimulationConfig.validate, h, hss, hload]
      · simp [SimulationConfig.validate, h, hss, hload]
      · simp [SimulationConfig.validate, h, hss, hload]

/-- A concrete validated MCMC-enabled configuration, used to instantiate
theorems. -/
def mcmcConfig : SimulationConfig :=
  { name := "mnist"
    image_size := 28
    num_channels := 1
    diff_model := "unet_mnist"
    class_cond := false
    num_diff_steps := 1000
    num_respaced_diff_steps := 250
    num_samples := 100
    batch_size := 10
    classifier := "resnet_classifier_t_mnist"
    guid_scale := PyVal.pyfloat 1
    mcmc_method := some "hmc"
    mcmc_steps := some 10
    mcmc_lower_t := some 0
    mcmc_stepsizes := some (PyVal.pydict
      [("load", PyVal.pybool true), ("bounds", PyVal.pystr "0.6_0.8")])
    n_trapets := PyVal.pynone }

/-- A concrete validated MCMC-free configuration whose sample count is a
multiple of its batch size. -/
def plainConfig : SimulationConfig :=
  { name := "mnist"
    image_size := 28
    num_channels := 1
    diff_model := "unet_mnist"
    class_cond := false
    num_diff_steps := 1000
    num_respaced_diff_steps := 250
    num_samples := 100
    batch_size := 10
    classifier := "resnet_classifier_t_mnist"
    guid_scale := PyVal.pyfloat 1
    mcmc_method := Option.none
    mcmc_steps := Option.none
    mcmc_lower_t := Option.none
    mcmc_stepsizes := Option.none
    n_trapets := PyVal.pynone }

/-- Witness for C1 at the concrete validated HMC configuration. -/
theorem from_json_validates_mcmc_w : mcmcConfig.from_json = some mcmcConfig :=
  (from_json_validates_mcmc mcmcConfig "hmc" rfl).mpr
    ⟨PyVal.pydict [("load", PyVal.pybool true), ("bounds", PyVal.pystr "0.6_0.8")], rfl,
      ⟨true, rfl,
        fun _ => ⟨PyVal.pystr "0.6_0.8", rfl, rfl⟩,
        fun hb => absurd hb (by decide)⟩,
      fun hm => absurd hm (by decide)⟩

/-- Counterexample to C3: the file `get_step_size` reads is keyed by the
acceptance-bounds identifier as well — two reads agreeing on dataset name and
MCMC method but differing in bounds resolve to different files — and the
calibration run writes its table to a fixed file name, not to any per-key
path. -/
theorem step_size_key_counterexample :
    step_size_path "models/step_sizes" "mnist" "hmc" "0.6_0.8" ≠
      step_size_path "models/step_sizes" "mnist" "hmc" "0.5_0.9" ∧
    find_stepsize_output_path ≠
      step_size_path "models/step_sizes" "mnist" "hmc" "0.6_0.8" := by
  constructor <;> decide

/-- Amended C3: the table `get_step_size` reads is keyed by the triple of
dataset/model name, MCMC method and acceptance bounds — with directory, name
and method fixed, the resolved path determines and is determined by the
bounds component — while the calibration run writes its table to the fixed
file `adaptive_step_sizes.p` regardless of any key. -/
theorem step_size_table_key (d n m b1 b2 : String) :
    (step_size_path d n m b1 = step_size_path d n m b2 ↔ b1 = b2) ∧
    find_stepsize_output_path = "adaptive_step_sizes.p" := by
  refine ⟨⟨fun hp => ?_, fun hb => by rw [hb]⟩, rfl⟩
  unfold step_size_path at hp
  have hd := congrArg String.data hp
  simp only [String.data_append] at hd
  exact String.ext (List.append_cancel_left (List.append_cancel_right hd))

/-- Counterexample to C8: a validated MCMC-enabled run does fail before any
sampling, but with a `TypeError` raised by the mis-called
`setup_results_dir`, not with an `AttributeError`; the `mcmc_bounds`
attribute read is never reached. -/
theorem mcmc_run_fails_with_type_error :
    simulation_main mcmcConfig ⟨true, true⟩ =
      .error (.typeError "setup_results_dir missing 1 required positional argument: job_id") ∧
    resultIsAttributeError (simulation_main mcmcConfig ⟨true, true⟩) = false := by
  constructor <;> rfl

/-- Amended C8: `SimulationConfig` declares no `mcmc_bounds` field, and the
MCMC branch of the production entry point reads it, so that branch raises an
`AttributeError` whenever it is reached with a non-None `mcmc_steps`; but
every run that passes validation and the divisibility assert fails earlier,
with a `TypeError`, because `setup_results_dir` is called without its
required `job_id` argument — so no MCMC-enabled production run reaches the
attribute read or any sampling. -/
theorem mcmc_bounds_missing_field (c : SimulationConfig) (env : SimEnv)
    (hv : c.validate = true) (hb : c.batch_size ≠ 0)
    (hdiv : c.num_samples % c.batch_size = 0)
    (hm : c.mcmc_method ≠ Option.none) (hs : c.mcmc_steps ≠ Option.none) :
    c.hasattr "mcmc_bounds" = false ∧
    simulation_mcmc_branch c = .error (.attributeError "mcmc_bounds") ∧
    simulation_main c env =
      .error (.typeError "setup_results_dir missing 1 required positional argument: job_id") := by
  have hna : c.hasattr "mcmc_bounds" = false := rfl
  refine ⟨hna, ?_, ?_⟩
  · rcases hmm : c.mcmc_method with _ | s1
    · exact absurd hmm hm
    · rcases hms : c.mcmc_steps with _ | s2
      · exact absurd hms hs
      · simp [simulation_mcmc_branch, hmm, hms, hna]
  · simp [simulation_main, hv, hb, hdiv, simulation_setup_dir_step]
    rfl

/-- Witness for the amended C8 at the concrete MCMC-enabled
configuration. -/
theorem mcmc_bounds_missing_field_w :
    mcmcConfig.hasattr "mcmc_bounds" = false ∧
    simulation_mcmc_branch mcmcConfig = .error (.attributeError "mcmc_bounds") ∧
    simulation_main mcmcConfig ⟨false, false⟩ =
      .error (.typeError "setup_results_dir missing 1 required positional argument: job_id") :=
  mcmc_bounds_missing_field mcmcConfig ⟨false, false⟩ rfl
    (by decide) rfl (by simp [mcmcConfig]) (by simp [mcmcConfig])

/-- Counterexample to C9: a validated MCMC-free configuration whose sample
count is a multiple of its batch size still performs no sampling calls — the
run raises a `TypeError` at the `setup_results_dir` call before any model is
loaded. -/
theorem simulation_no_sampling_calls :
    plainConfig.num_samples % plainConfig.batch_size = 0 ∧
    simulation_main plainConfig ⟨true, true⟩ =
      .error (.typeError "setup_results_dir missing 1 required positional argument: job_id") := by
  constructor <;> rfl

/-- Amended C9: the production simulation requires `num_samples` to be an
integer multiple of `batch_size`, failing on this assertion before any model
file is consulted (for every filesystem state); when the condition holds the
run still performs no sampling calls — it raises a `TypeError` because
`setup_results_dir` is called without its required `job_id` argument — while
the sampling loop as written performs exactly `num_samples / batch_size`
calls, each requesting exactly `batch_size` samples with exactly `batch_size`
class labels. -/
theorem simulation_divisibility_gate (c : SimulationConfig) (env : SimEnv)
    (hv : c.validate = true) (hb : c.batch_size ≠ 0) :
    (c.num_samples % c.batch_size ≠ 0 →
      simulation_main c env =
        .error (.assertionError "num_samples should be a multiple of batch_size")) ∧
    (c.num_samples % c.batch_size = 0 →
      simulation_main c env =
        .error (.typeError "setup_results_dir missing 1 required positional argument: job_id")) ∧
    (sampling_loop_calls c).length = c.num_samples / c.batch_size ∧
    (∀ call ∈ sampling_loop_calls c, call = ⟨c.batch_size, c.batch_size⟩) := by
  refine ⟨?_, ?_, ?_, ?_⟩
  · intro hdiv
    simp [simulation_main, hv, hb, hdiv]
    rfl
  · intro hdiv
    simp [simulation_main, hv, hb, hdiv, simulation_setup_dir_step]
    rfl
  · simp [sampling_loop_calls]
  · intro call hcall
    rcases List.mem_map.mp hcall with ⟨i, -, hi⟩
    exact hi.symm

/-- Witness for the amended C9 at the concrete MCMC-free configuration. -/
theorem simulation_divisibility_gate_w :
    (plainConfig.num_samples % plainConfig.batch_size ≠ 0 →
      simulation_main plainConfig ⟨true, true⟩ =
        .error (.assertionError "num_samples should be a multiple of batch_size")) ∧
    (plainConfig.num_samples % plainConfig.batch_size = 0 →
      simulation_main plainConfig ⟨true, true⟩ =
        .error (.typeError "setup_results_dir missing 1 required positional argument: job_id")) ∧
    (sampling_loop_calls plainConfig).length =
      plainConfig.num_samples / plainConfig.batch_size ∧
    (∀ call ∈ sampling_loop_calls plainConfig,
      call = ⟨plainConfig.batch_size, plainConfig.batch_size⟩) :=
  simulation_divisibility_gate plainConfig ⟨true, true⟩ rfl (by decide)
